import Mathlib

/-!
Shallow embedding of `pybotvac/account.py`: the Session/Account
authentication-and-caching layer of the pybotvac client.

Modelling conventions:
* Python dicts become association lists (`List (String × α)`) with the
  insertion-order/overwrite-in-place update semantics of CPython dicts.
* The Python `set()` holding `Robot` objects becomes a `List Robot` in
  insertion order: the `Robot` class (repository file `robot.py`, not part
  of the analysed sources) defines no custom equality, so, per the spec's
  discussion of identity-based set behaviour, every freshly constructed
  `Robot` is a distinct set element and `set.add` appends.
* Network I/O is a deterministic oracle (`Net`): each operation returns the
  value produced (or the exception raised, via `Except`), the Session state
  after the call (mutations made before an exception persist, as on a real
  Python object), and the trace of HTTP requests it issued.
* `requests.Response.raise_for_status` raises `HTTPError` exactly for
  status codes in `[400, 600)`; this is the documented behaviour of the
  `requests` library and is embedded as such.
-/

namespace Pybotvac

/-- Header mapping produced by an auth provider: both providers emit exactly
an `Accept` and an `Authorization` entry. -/
structure Headers where
  accept : String
  authorization : String
deriving DecidableEq, Repr

/-- Auth provider variants: `BasicAuthProvider` holds an access token,
`OAuthProvider` holds an OAuth token. -/
inductive AuthProvider where
  | basic (access_token : String)
  | oauth (oauth_token : String)
deriving DecidableEq, Repr

/-- Embeds `BasicAuthProvider.generate_headers` and
`OAuthProvider.generate_headers`. -/
def generate_headers : AuthProvider → Headers
  | .basic access_token =>
      { accept := "application/vnd.neato.nucleo.v1",
        authorization := "Token token=" ++ access_token }
  | .oauth oauth_token =>
      { accept := "application/vnd.neato.beehive.v1+json",
        authorization := "Bearer " ++ oauth_token }

/-- Opaque parsed JSON payload (the maps endpoint's body is opaque to this
layer). -/
abbrev Json := String

/-- Device record of the `users/me/robots` response body:
`{name, serial, secret_key, traits}`. -/
structure DeviceRecord where
  name : String
  serial : String
  secret_key : String
  traits : List String
deriving DecidableEq, Repr

/-- Modelled from the spec: the external `Robot` collaborator (repository
file `robot.py` is not among the analysed sources). Constructed with
`(name, serial, secret, traits, auth_provider)`; the core only constructs
it and reads `serial` and `persistent_maps`. -/
structure Robot where
  name : String
  serial : String
  secret : String
  traits : List String
  auth_provider : AuthProvider
deriving DecidableEq, Repr

/-- Session state: the instance fields set by `Session.__init__`. -/
structure Session where
  auth_provider : AuthProvider
  _robots : List Robot
  robot_serials : List (String × String)
  _maps : List (String × Json)
  _headers : Headers
  _persistent_maps : List (String × Json)
deriving DecidableEq, Repr

/-- Embeds `Session.__init__(auth_provider)`: all collections start empty and
`_headers` is computed once, here, from the auth provider. -/
def Session.init (auth_provider : AuthProvider) : Session :=
  { auth_provider := auth_provider,
    _robots := [],
    robot_serials := [],
    _maps := [],
    _headers := generate_headers auth_provider,
    _persistent_maps := [] }

/-- Base URL constant `Account.ENDPOINT`. -/
def ENDPOINT : String := "https://beehive.neatocloud.com/"

/-- Result of `urljoin(Account.ENDPOINT, 'users/me/robots')`: the base ends
in a slash and the second argument is a relative path, so `urljoin`
concatenates. -/
def robotsUrl : String := ENDPOINT ++ "users/me/robots"

/-- Result of `urljoin(Account.ENDPOINT, 'users/me/robots/{serial}/maps')`. -/
def mapsUrl (serial : String) : String :=
  ENDPOINT ++ "users/me/robots/" ++ serial ++ "/maps"

/-- URL of `urljoin(cls.ENDPOINT, 'sessions')`. -/
def sessionsUrl : String := ENDPOINT ++ "sessions"

/-- JSON body of the `login_basic` POST. -/
structure LoginBody where
  email : String
  password : String
  platform : String
  token : String
deriving DecidableEq, Repr

/-- HTTP requests the embedded code can issue. -/
inductive Request where
  | get (url : String) (headers : Headers)
  | getStream (url : String) (timeout : Nat)
  | post (url : String) (body : LoginBody) (accept : String)
deriving DecidableEq, Repr

/-- Headers attached to a request, when it carries any. -/
def Request.headersOf : Request → Option Headers
  | .get _ h => some h
  | .getStream _ _ => none
  | .post _ _ _ => none

/-- HTTP response: a status code and the parsed body. -/
structure Response (α : Type) where
  status : Nat
  body : α
deriving DecidableEq, Repr

/-- Errors the embedded code can raise. -/
inductive PyError where
  | httpError (status : Nat)
  | indexError
deriving DecidableEq, Repr

deriving instance DecidableEq for Except

/-- Status codes for which `requests.Response.raise_for_status` raises
`HTTPError`: client errors (4xx) and server errors (5xx). -/
def isErrorStatus (status : Nat) : Bool :=
  400 ≤ status && status < 600

/-- Embeds `resp.raise_for_status()`. -/
def raise_for_status (status : Nat) : Except PyError Unit :=
  if isErrorStatus status then .error (.httpError status) else .ok ()

/-- Deterministic network oracle: what the remote service answers to each
request the session layer can make. `robotPersistentMaps` is modelled from
the spec: `Robot.persistent_maps` is an opaque read accessor on the external
`Robot` collaborator that fetches its own data. -/
structure Net where
  robotsResp : Response (List DeviceRecord)
  mapsResp : String → Response Json
  robotPersistentMaps : String → Json

/-- CPython dict update with a single key: overwrite in place if the key is
present, else append. -/
def dictUpdate (d : List (String × α)) (k : String) (v : α) :
    List (String × α) :=
  if d.any (fun kv => kv.1 = k) then
    d.map (fun kv => if kv.1 = k then (k, v) else kv)
  else d ++ [(k, v)]

/-- Outcome of running one session operation: the value it returned or the
exception it raised, the session state afterwards (mutations made before an
exception persist), and the HTTP requests issued, in order. -/
abbrev Out (α : Type) := Except PyError α × Session × List Request

/-- Robot constructed by `refresh_robots` from one device record: `secret`
is mapped from the remote field `secret_key`, `auth_provider` is the
session's provider. -/
def mkRobot (auth_provider : AuthProvider) (r : DeviceRecord) : Robot :=
  { name := r.name, serial := r.serial, secret := r.secret_key,
    traits := r.traits, auth_provider := auth_provider }

/-- Embeds `Session.refresh_robots`: one authenticated GET to
`users/me/robots`; on 4xx/5xx raises without mutating; on success adds one
`Robot` per device record to `_robots` without clearing it (identity-based
set: every constructed Robot is a fresh element, so `set.add` appends). -/
def Session.refresh_robots (net : Net) (s : Session) : Out Unit :=
  let resp := net.robotsResp
  let trace := [Request.get robotsUrl s._headers]
  match raise_for_status resp.status with
  | .error e => (.error e, s, trace)
  | .ok _ =>
      (.ok (),
       { s with _robots := s._robots ++ resp.body.map (mkRobot s.auth_provider) },
       trace)

/-- Embeds the `Session.robots` property: refreshes only when `_robots` is
empty (falsy), then returns `_robots`. -/
def Session.robots (net : Net) (s : Session) : Out (List Robot) :=
  if s._robots.isEmpty then
    let t := Session.refresh_robots net s
    match t.1 with
    | .ok _ => (.ok t.2.1._robots, t.2.1, t.2.2)
    | .error e => (.error e, t.2.1, t.2.2)
  else (.ok s._robots, s, [])

/-- Loop body of `Session.refresh_maps`: for each robot, an authenticated
GET to `users/me/robots/{serial}/maps`; raise on 4xx/5xx (aborting the rest
of the batch, keeping the entries already written); on success store the
parsed body under the robot's serial. -/
def refreshMapsLoop (net : Net) (robots : List Robot) (s : Session) :
    Out Unit :=
  match robots with
  | [] => (.ok (), s, [])
  | robot :: rest =>
      let resp2 := net.mapsResp robot.serial
      let req := Request.get (mapsUrl robot.serial) s._headers
      match raise_for_status resp2.status with
      | .error e => (.error e, s, [req])
      | .ok _ =>
          let s1 := { s with _maps := dictUpdate s._maps robot.serial resp2.body }
          let t := refreshMapsLoop net rest s1
          (t.1, t.2.1, req :: t.2.2)

/-- Embeds `Session.refresh_maps`: iterates over `self.robots` (which lazily
refreshes the robot set first if it is empty), then runs the per-robot
loop. -/
def Session.refresh_maps (net : Net) (s : Session) : Out Unit :=
  let t := Session.robots net s
  match t.1 with
  | .ok robots =>
      let u := refreshMapsLoop net robots t.2.1
      (u.1, u.2.1, t.2.2 ++ u.2.2)
  | .error e => (.error e, t.2.1, t.2.2)

/-- Embeds the `Session.maps` property: unconditionally calls
`refresh_maps()`, then returns `_maps`. -/
def Session.maps (net : Net) (s : Session) : Out (List (String × Json)) :=
  let t := Session.refresh_maps net s
  match t.1 with
  | .ok _ => (.ok t.2.1._maps, t.2.1, t.2.2)
  | .error e => (.error e, t.2.1, t.2.2)

/-- Embeds the `Session.persistent_maps` property:
`{robot.serial: robot.persistent_maps for robot in self.robots}`; delegates
to the external Robot collaborator (whose own network traffic is out of
scope and not traced). -/
def Session.persistent_maps (net : Net) (s : Session) :
    Out (List (String × Json)) :=
  let t := Session.robots net s
  match t.1 with
  | .ok robots =>
      (.ok (robots.foldl
              (fun d r => dictUpdate d r.serial (net.robotPersistentMaps r.serial))
              []),
       t.2.1, t.2.2)
  | .error e => (.error e, t.2.1, t.2.2)

/-- Python `str.split(sep)` for a one-character separator, over the
character list of the string: empty fields are kept, and splitting the
empty string yields one empty field, as in CPython. -/
def pySplit (sep : Char) : List Char → List (List Char)
  | [] => [[]]
  | c :: cs =>
      match pySplit sep cs with
      | [] => [[]]
      | g :: gs => if c = sep then [] :: g :: gs else (c :: g) :: gs

/-- Python `s.split(sep)` producing strings. -/
def pySplitStr (s : String) (sep : Char) : List String :=
  (pySplit sep s.data).map String.mk

/-- Python `s.rsplit('/', m)`: split on '/' from the right, at most `m`
splits, the unsplit remainder joined back as the first element. -/
def pyRsplitSlash (s : String) (m : Nat) : List String :=
  let parts := pySplitStr s '/'
  if parts.length ≤ m + 1 then parts
  else
    String.intercalate "/" (parts.take (parts.length - m)) ::
      parts.drop (parts.length - m)

/-- Python `s.split('?')[0]`. -/
def dropQuery (s : String) : String :=
  (pySplitStr s '?').headD ""

/-- Python `os.path.join(d, f)` for the cases reachable here: an absolute
second component wins; otherwise the components are joined with a single
separator. -/
def pyPathJoin (d f : String) : String :=
  if f.data.take 1 = ['/'] then f
  else if d = "" || d.data.getLast? = some '/' then d ++ f
  else d ++ "/" ++ f

/-- Outcome of `get_map_image`: the value returned (the raw byte stream) or
the exception raised, the files written to disk as `(path, bytes)` pairs,
and the HTTP requests issued. -/
structure ImageResult where
  returned : Except PyError Json
  writes : List (String × Json)
  trace : List Request
deriving DecidableEq, Repr

/-- Embeds the static method `Session.get_map_image(url, dest_path=None)`.
The streaming GET's response is supplied by the oracle `imageResp`. When
`dest_path` is falsy (absent or the empty string) the body is returned with
no status check and no write. Otherwise the filename is derived from the
URL first (Python raises `IndexError` here when the URL contains no slash),
then `raise_for_status()` runs, and only then is the file written. -/
def get_map_image (imageResp : Response Json) (url : String)
    (dest_path : Option String := none) : ImageResult :=
  let image := imageResp
  let trace := [Request.getStream url 10]
  match dest_path with
  | none => { returned := .ok image.body, writes := [], trace := trace }
  | some d =>
  if d = "" then { returned := .ok image.body, writes := [], trace := trace }
  else
    match (pyRsplitSlash url 2).get? 1, (pyRsplitSlash url 1).get? 1 with
    | some seg2, some seg1 =>
        let image_url := seg2 ++ "-" ++ seg1
        let image_filename := dropQuery image_url
        let dest := pyPathJoin d image_filename
        match raise_for_status image.status with
        | .error e => { returned := .error e, writes := [], trace := trace }
        | .ok _ =>
            { returned := .ok image.body, writes := [(dest, image.body)],
              trace := trace }
    | _, _ => { returned := .error .indexError, writes := [], trace := trace }

/-- Body of the JSON response to the login POST. -/
structure LoginJson where
  access_token : String
deriving DecidableEq, Repr

/-- Lowercase hex digit of a value below 16. -/
def hexDigit (n : Nat) : Char :=
  if n < 10 then Char.ofNat (48 + n) else Char.ofNat (87 + n)

/-- Python `binascii.hexlify(bytes).decode('utf8')`: two lowercase hex
characters per byte. -/
def hexlify : List Nat → String
  | [] => ""
  | b :: bs => String.mk [hexDigit (b / 16), hexDigit (b % 16)] ++ hexlify bs

/-- Embeds `Account.login_basic(email, password)`. The 64 bytes drawn from
`os.urandom(64)` enter as the parameter `urandom64`; the POST response comes
from the oracle `resp`. On 4xx/5xx the HTTP error propagates; otherwise the
`access_token` field of the body seeds a `BasicAuthProvider` wrapped in a
fresh `Session`. -/
def login_basic (resp : Response LoginJson) (email password : String)
    (urandom64 : List Nat) : Except PyError Session × List Request :=
  let body : LoginBody :=
    { email := email, password := password, platform := "ios",
      token := hexlify urandom64 }
  let trace := [Request.post sessionsUrl body "application/vnd.neato.nucleo.v1"]
  match raise_for_status resp.status with
  | .error e => (.error e, trace)
  | .ok _ =>
      let access_token := resp.body.access_token
      (.ok (Session.init (AuthProvider.basic access_token)), trace)

/-- Embeds `Account.login_oauth(oauth_token)`: wraps an `OAuthProvider` in a
fresh `Session`; the empty trace records that no request is issued. -/
def login_oauth (oauth_token : String) : Session × List Request :=
  (Session.init (AuthProvider.oauth oauth_token), [])

/-- Stateful operations a caller can invoke on a `Session`. -/
inductive SessionOp where
  | robots
  | maps
  | persistent_maps
  | refresh_robots
  | refresh_maps
deriving DecidableEq, Repr

/-- State and trace of one operation (the returned value, whose type varies
per operation, is dropped). -/
def runOp (net : Net) (op : SessionOp) (s : Session) : Session × List Request :=
  match op with
  | .robots => (Session.robots net s).2
  | .maps => (Session.maps net s).2
  | .persistent_maps => (Session.persistent_maps net s).2
  | .refresh_robots => (Session.refresh_robots net s).2
  | .refresh_maps => (Session.refresh_maps net s).2

/-- Session state after a sequence of operations. -/
def runOps (net : Net) (s : Session) : List SessionOp → Session
  | [] => s
  | op :: rest => runOps net (runOp net op s).1 rest

/-! Helper abbreviations used by the statements below. -/

/-- Robots built from the oracle's device list by `refresh_robots`. -/
def fetchedRobots (net : Net) (auth_provider : AuthProvider) : List Robot :=
  net.robotsResp.body.map (mkRobot auth_provider)

/-- Authenticated GET for one robot's maps. -/
def mapGetRequest (h : Headers) (r : Robot) : Request :=
  Request.get (mapsUrl r.serial) h

/-- Contents of `_maps` after a successful pass of the refresh loop over the
given robots, starting from dict `d`. -/
def mapsFold (net : Net) (d : List (String × Json)) (robots : List Robot) :
    List (String × Json) :=
  robots.foldl (fun d r => dictUpdate d r.serial (net.mapsResp r.serial).body) d

/-! Characterisation lemmas for the embedded operations. -/

theorem robots_of_nonempty (net : Net) (s : Session) (h : s._robots ≠ []) :
    Session.robots net s = (.ok s._robots, s, []) := by
  cases hr : s._robots with
  | nil => exact absurd hr h
  | cons a l => simp [Session.robots, hr]

theorem refresh_robots_of_ok (net : Net) (s : Session)
    (h : isErrorStatus net.robotsResp.status = false) :
    Session.refresh_robots net s =
      (.ok (), { s with _robots := s._robots ++ fetchedRobots net s.auth_provider },
       [Request.get robotsUrl s._headers]) := by
  simp [Session.refresh_robots, raise_for_status, h, fetchedRobots]

theorem robots_of_empty_ok (net : Net) (s : Session) (h0 : s._robots = [])
    (h : isErrorStatus net.robotsResp.status = false) :
    Session.robots net s =
      (.ok (fetchedRobots net s.auth_provider),
       { s with _robots := fetchedRobots net s.auth_provider },
       [Request.get robotsUrl s._headers]) := by
  simp [Session.robots, h0, refresh_robots_of_ok net s h]

theorem refreshMapsLoop_of_ok (net : Net) (robots : List Robot) :
    ∀ s : Session,
      (∀ r ∈ robots, isErrorStatus (net.mapsResp r.serial).status = false) →
      refreshMapsLoop net robots s =
        (.ok (), { s with _maps := mapsFold net s._maps robots },
         robots.map (mapGetRequest s._headers)) := by
  induction robots with
  | nil => intro s _; simp [refreshMapsLoop, mapsFold]
  | cons r rest ih =>
      intro s hall
      have hr : isErrorStatus (net.mapsResp r.serial).status = false :=
        hall r (List.mem_cons_self r rest)
      have hrest : ∀ x ∈ rest, isErrorStatus (net.mapsResp x.serial).status = false :=
        fun x hx => hall x (List.mem_cons_of_mem r hx)
      simp [refreshMapsLoop, raise_for_status, hr,
            ih { s with _maps := dictUpdate s._maps r.serial (net.mapsResp r.serial).body } hrest,
            mapsFold, mapGetRequest]

theorem refreshMapsLoop_of_fail (net : Net) (bad : Robot) (post : List Robot)
    (hbad : isErrorStatus (net.mapsResp bad.serial).status = true) :
    ∀ (pre : List Robot) (s : Session),
      (∀ r ∈ pre, isErrorStatus (net.mapsResp r.serial).status = false) →
      refreshMapsLoop net (pre ++ bad :: post) s =
        (.error (.httpError (net.mapsResp bad.serial).status),
         { s with _maps := mapsFold net s._maps pre },
         pre.map (mapGetRequest s._headers) ++ [mapGetRequest s._headers bad]) := by
  intro pre
  induction pre with
  | nil => intro s _; simp [refreshMapsLoop, raise_for_status, hbad, mapsFold, mapGetRequest]
  | cons r rest ih =>
      intro s hall
      have hr : isErrorStatus (net.mapsResp r.serial).status = false :=
        hall r (List.mem_cons_self r rest)
      have hrest : ∀ x ∈ rest, isErrorStatus (net.mapsResp x.serial).status = false :=
        fun x hx => hall x (List.mem_cons_of_mem r hx)
      simp [refreshMapsLoop, raise_for_status, hr,
            ih { s with _maps := dictUpdate s._maps r.serial (net.mapsResp r.serial).body } hrest,
            mapsFold, mapGetRequest]

theorem refresh_maps_of_nonempty_ok (net : Net) (s : Session)
    (h0 : s._robots ≠ [])
    (hall : ∀ r ∈ s._robots, isErrorStatus (net.mapsResp r.serial).status = false) :
    Session.refresh_maps net s =
      (.ok (), { s with _maps := mapsFold net s._maps s._robots },
       s._robots.map (mapGetRequest s._headers)) := by
  simp [Session.refresh_maps, robots_of_nonempty net s h0,
        refreshMapsLoop_of_ok net s._robots s hall]

/-! Frame lemmas: which Session fields each operation can touch. -/

theorem refreshMapsLoop_frame (net : Net) (robots : List Robot) :
    ∀ s : Session,
      (refreshMapsLoop net robots s).2.1.auth_provider = s.auth_provider ∧
      (refreshMapsLoop net robots s).2.1._robots = s._robots ∧
      (refreshMapsLoop net robots s).2.1._headers = s._headers ∧
      (refreshMapsLoop net robots s).2.1.robot_serials = s.robot_serials ∧
      (refreshMapsLoop net robots s).2.1._persistent_maps = s._persistent_maps := by
  induction robots with
  | nil => intro s; simp [refreshMapsLoop]
  | cons r rest ih =>
      intro s
      by_cases h : isErrorStatus (net.mapsResp r.serial).status
      · simp [refreshMapsLoop, raise_for_status, h]
      · simpa [refreshMapsLoop, raise_for_status, h] using
          ih { s with _maps := dictUpdate s._maps r.serial (net.mapsResp r.serial).body }

theorem robots_frame (net : Net) (s : Session) :
    (Session.robots net s).2.1._headers = s._headers ∧
    (Session.robots net s).2.1.auth_provider = s.auth_provider ∧
    (Session.robots net s).2.1.robot_serials = s.robot_serials ∧
    (Session.robots net s).2.1._maps = s._maps ∧
    (Session.robots net s).2.1._persistent_maps = s._persistent_maps := by
  by_cases h0 : s._robots.isEmpty
  · by_cases h : isErrorStatus net.robotsResp.status
    · simp [Session.robots, Session.refresh_robots, raise_for_status, h0, h]
    · simp [Session.robots, Session.refresh_robots, raise_for_status, h0, h]
  · simp [Session.robots, h0]

theorem refresh_robots_frame (net : Net) (s : Session) :
    (Session.refresh_robots net s).2.1._headers = s._headers ∧
    (Session.refresh_robots net s).2.1.auth_provider = s.auth_provider ∧
    (Session.refresh_robots net s).2.1.robot_serials = s.robot_serials ∧
    (Session.refresh_robots net s).2.1._maps = s._maps ∧
    (Session.refresh_robots net s).2.1._persistent_maps = s._persistent_maps := by
  by_cases h : isErrorStatus net.robotsResp.status
  · simp [Session.refresh_robots, raise_for_status, h]
  · simp [Session.refresh_robots, raise_for_status, h]

theorem refresh_maps_frame (net : Net) (s : Session) :
    (Session.refresh_maps net s).2.1._headers = s._headers ∧
    (Session.refresh_maps net s).2.1.auth_provider = s.auth_provider ∧
    (Session.refresh_maps net s).2.1.robot_serials = s.robot_serials ∧
    (Session.refresh_maps net s).2.1._persistent_maps = s._persistent_maps := by
  obtain ⟨f1, f2, f3, f4, f5⟩ := robots_frame net s
  cases h : (Session.robots net s).1 with
  | ok robots =>
      obtain ⟨g1, g2, g3, g4, g5⟩ :=
        refreshMapsLoop_frame net robots (Session.robots net s).2.1
      simp [Session.refresh_maps, h, g1, g2, g3, g4, g5, f1, f2, f3, f4, f5]
  | error e => simp [Session.refresh_maps, h, f1, f2, f3, f4, f5]

theorem maps_frame (net : Net) (s : Session) :
    (Session.maps net s).2.1._headers = s._headers ∧
    (Session.maps net s).2.1.auth_provider = s.auth_provider ∧
    (Session.maps net s).2.1.robot_serials = s.robot_serials ∧
    (Session.maps net s).2.1._persistent_maps = s._persistent_maps := by
  obtain ⟨f1, f2, f3, f4⟩ := refresh_maps_frame net s
  cases h : (Session.refresh_maps net s).1 with
  | ok u => simp [Session.maps, h, f1, f2, f3, f4]
  | error e => simp [Session.maps, h, f1, f2, f3, f4]

theorem persistent_maps_frame (net : Net) (s : Session) :
    (Session.persistent_maps net s).2.1._headers = s._headers ∧
    (Session.persistent_maps net s).2.1.auth_provider = s.auth_provider ∧
    (Session.persistent_maps net s).2.1.robot_serials = s.robot_serials ∧
    (Session.persistent_maps net s).2.1._persistent_maps = s._persistent_maps := by
  obtain ⟨f1, f2, f3, f4, f5⟩ := robots_frame net s
  cases h : (Session.robots net s).1 with
  | ok robots => simp [Session.persistent_maps, h, f1, f2, f3, f5]
  | error e => simp [Session.persistent_maps, h, f1, f2, f3, f5]

theorem runOp_frame (net : Net) (op : SessionOp) (s : Session) :
    (runOp net op s).1._headers = s._headers ∧
    (runOp net op s).1.auth_provider = s.auth_provider ∧
    (runOp net op s).1.robot_serials = s.robot_serials ∧
    (runOp net op s).1._persistent_maps = s._persistent_maps := by
  cases op with
  | robots =>
      obtain ⟨f1, f2, f3, _, f5⟩ := robots_frame net s
      exact ⟨f1, f2, f3, f5⟩
  | maps => exact maps_frame net s
  | persistent_maps => exact persistent_maps_frame net s
  | refresh_robots =>
      obtain ⟨f1, f2, f3, _, f5⟩ := refresh_robots_frame net s
      exact ⟨f1, f2, f3, f5⟩
  | refresh_maps => exact refresh_maps_frame net s

theorem runOps_frame (net : Net) (ops : List SessionOp) :
    ∀ s : Session,
      (runOps net s ops)._headers = s._headers ∧
      (runOps net s ops).robot_serials = s.robot_serials ∧
      (runOps net s ops)._persistent_maps = s._persistent_maps := by
  induction ops with
  | nil => intro s; exact ⟨rfl, rfl, rfl⟩
  | cons op rest ih =>
      intro s
      obtain ⟨h1, h2, h3⟩ := ih (runOp net op s).1
      obtain ⟨g1, _, g3, g4⟩ := runOp_frame net op s
      exact ⟨by rw [runOps, h1, g1], by rw [runOps, h2, g3], by rw [runOps, h3, g4]⟩

/-! Trace lemmas: every request a Session operation issues carries the
stored `_headers` snapshot. -/

theorem refreshMapsLoop_trace_headers (net : Net) (robots : List Robot) :
    ∀ s : Session, ∀ req ∈ (refreshMapsLoop net robots s).2.2,
      req.headersOf = some s._headers := by
  induction robots with
  | nil => intro s req h; simp [refreshMapsLoop] at h
  | cons r rest ih =>
      intro s req h
      by_cases hs : isErrorStatus (net.mapsResp r.serial).status
      · simp [refreshMapsLoop, raise_for_status, hs] at h
        subst h; rfl
      · simp [refreshMapsLoop, raise_for_status, hs] at h
        rcases h with h | h
        · subst h; rfl
        · exact ih { s with _maps := dictUpdate s._maps r.serial (net.mapsResp r.serial).body } req h

theorem refresh_robots_trace_headers (net : Net) (s : Session) :
    ∀ req ∈ (Session.refresh_robots net s).2.2, req.headersOf = some s._headers := by
  intro req h
  by_cases hs : isErrorStatus net.robotsResp.status
  · simp [Session.refresh_robots, raise_for_status, hs] at h
    subst h; rfl
  · simp [Session.refresh_robots, raise_for_status, hs] at h
    subst h; rfl

theorem robots_trace_headers (net : Net) (s : Session) :
    ∀ req ∈ (Session.robots net s).2.2, req.headersOf = some s._headers := by
  intro req h
  by_cases h0 : s._robots.isEmpty
  · have : req ∈ (Session.refresh_robots net s).2.2 := by
      cases ht : (Session.refresh_robots net s).1 with
      | ok u => simpa [Session.robots, h0, ht] using h
      | error e => simpa [Session.robots, h0, ht] using h
    exact refresh_robots_trace_headers net s req this
  · simp [Session.robots, h0] at h

theorem refresh_maps_trace_headers (net : Net) (s : Session) :
    ∀ req ∈ (Session.refresh_maps net s).2.2, req.headersOf = some s._headers := by
  intro req h
  cases ht : (Session.robots net s).1 with
  | ok robots =>
      simp [Session.refresh_maps, ht] at h
      rcases h with h | h
      · exact robots_trace_headers net s req h
      · have := refreshMapsLoop_trace_headers net robots (Session.robots net s).2.1 req h
        rwa [(robots_frame net s).1] at this
  | error e =>
      simp [Session.refresh_maps, ht] at h
      exact robots_trace_headers net s req h

theorem maps_trace_headers (net : Net) (s : Session) :
    ∀ req ∈ (Session.maps net s).2.2, req.headersOf = some s._headers := by
  intro req h
  have : req ∈ (Session.refresh_maps net s).2.2 := by
    cases ht : (Session.refresh_maps net s).1 with
    | ok u => simpa [Session.maps, ht] using h
    | error e => simpa [Session.maps, ht] using h
  exact refresh_maps_trace_headers net s req this

theorem persistent_maps_trace_headers (net : Net) (s : Session) :
    ∀ req ∈ (Session.persistent_maps net s).2.2, req.headersOf = some s._headers := by
  intro req h
  have : req ∈ (Session.robots net s).2.2 := by
    cases ht : (Session.robots net s).1 with
    | ok u => simpa [Session.persistent_maps, ht] using h
    | error e => simpa [Session.persistent_maps, ht] using h
  exact robots_trace_headers net s req this

theorem runOp_trace_headers (net : Net) (op : SessionOp) (s : Session) :
    ∀ req ∈ (runOp net op s).2, req.headersOf = some s._headers := by
  cases op with
  | robots => exact robots_trace_headers net s
  | maps => exact maps_trace_headers net s
  | persistent_maps => exact persistent_maps_trace_headers net s
  | refresh_robots => exact refresh_robots_trace_headers net s
  | refresh_maps => exact refresh_maps_trace_headers net s

/-! Support lemmas for `hexlify` and `pyRsplitSlash`. -/

theorem hexlify_length (bytes : List Nat) :
    (hexlify bytes).length = 2 * bytes.length := by
  induction bytes with
  | nil => rfl
  | cons b bs ih =>
      show (String.mk [hexDigit (b / 16), hexDigit (b % 16)] ++ hexlify bs).length
        = 2 * (b :: bs).length
      rw [String.length_append, ih]
      simp [String.length]
      omega

theorem hexDigit_mem_of_lt : ∀ n < 16, hexDigit n ∈ "0123456789abcdef".data := by
  decide

theorem hexlify_chars (bytes : List Nat) (h : ∀ b ∈ bytes, b < 256) :
    ∀ c ∈ (hexlify bytes).data, c ∈ "0123456789abcdef".data := by
  induction bytes with
  | nil => intro c hc; simp [hexlify] at hc
  | cons b bs ih =>
      intro c hc
      have hb : b < 256 := h b (List.mem_cons_self b bs)
      have hbs : ∀ x ∈ bs, x < 256 := fun x hx => h x (List.mem_cons_of_mem b hx)
      have hdata : (hexlify (b :: bs)).data =
          [hexDigit (b / 16), hexDigit (b % 16)] ++ (hexlify bs).data := by
        show (String.mk [hexDigit (b / 16), hexDigit (b % 16)] ++ hexlify bs).data = _
        cases hx : hexlify bs with
        | mk l => rfl
      rw [hdata] at hc
      rcases List.mem_append.mp hc with hc | hc
      · rcases List.mem_cons.mp hc with hc | hc
        · rw [hc]; exact hexDigit_mem_of_lt (b / 16) (Nat.div_lt_of_lt_mul (by omega))
        · rcases List.mem_cons.mp hc with hc | hc
          · rw [hc]; exact hexDigit_mem_of_lt (b % 16) (Nat.mod_lt _ (by omega))
          · simp at hc
      · exact ih hbs c hc

theorem pyRsplitSlash_two_le_length (url : String) (m : Nat) (hm : 1 ≤ m)
    (h : 2 ≤ (pySplitStr url '/').length) :
    2 ≤ (pyRsplitSlash url m).length := by
  unfold pyRsplitSlash
  by_cases hle : (pySplitStr url '/').length ≤ m + 1
  · simpa [hle] using h
  · simp only [hle, if_false, List.length_cons, List.length_drop]
    omega

/-! Concrete fixtures used by counterexamples and witnesses. -/

/-- Device record used in concrete scenarios. -/
def demoRecord1 : DeviceRecord :=
  { name := "R1", serial := "S1", secret_key := "K1", traits := [] }

/-- Second device record used in concrete scenarios. -/
def demoRecord2 : DeviceRecord :=
  { name := "R2", serial := "S2", secret_key := "K2", traits := [] }

/-- Oracle whose robots endpoint succeeds with an empty device list. -/
def emptyListNet : Net :=
  { robotsResp := { status := 200, body := [] },
    mapsResp := fun _ => { status := 200, body := "M" },
    robotPersistentMaps := fun _ => "P" }

/-- Oracle whose robots endpoint returns one device. -/
def oneRobotNet : Net :=
  { robotsResp := { status := 200, body := [demoRecord1] },
    mapsResp := fun _ => { status := 200, body := "M" },
    robotPersistentMaps := fun _ => "P" }

/-- Oracle with two devices whose second maps request answers with the given
status. -/
def twoRobotNet (status2 : Nat) : Net :=
  { robotsResp := { status := 200, body := [demoRecord1, demoRecord2] },
    mapsResp := fun serial =>
      if serial = "S2" then { status := status2, body := "M2" }
      else { status := 200, body := "M1" },
    robotPersistentMaps := fun _ => "P" }

/-- Fresh session as produced by a login. -/
def demoSession : Session := Session.init (AuthProvider.basic "T")

/-- Session whose robot cache holds the single demo robot. -/
def oneRobotSession : Session :=
  (Session.robots oneRobotNet demoSession).2.1

/-- Session whose robot cache holds the two demo robots. -/
def twoRobotSession : Session :=
  (Session.robots (twoRobotNet 200) demoSession).2.1

/-! Claim theorems. -/

/-- C1 (counterexample): the robots accessor is NOT memoized for every
Session: against an oracle whose robots endpoint succeeds with an empty
device list, a fresh Session's two consecutive robots accesses each issue
one network request — two in total, not exactly one — because memoization is
keyed on non-emptiness of `_robots`, which stays empty. -/
theorem robots_twice_two_requests_cex :
    (Session.robots emptyListNet demoSession).2.2.length = 1 ∧
    (Session.robots emptyListNet
        (Session.robots emptyListNet demoSession).2.1).2.2.length = 1 ∧
    ¬ ((Session.robots emptyListNet demoSession).2.2.length +
       (Session.robots emptyListNet
          (Session.robots emptyListNet demoSession).2.1).2.2.length = 1) := by
  decide

/-- C1 (amended): the robots accessor calls `refresh_robots()` only when
`_robots` is empty; for a Session whose `_robots` is empty, provided the
fetch succeeds and returns at least one device, the first access issues
exactly one GET and populates the cache, and the second access issues no
request and returns the cached set unchanged. -/
theorem robots_memoized_of_nonempty_fetch (net : Net) (s : Session)
    (h0 : s._robots = [])
    (hok : isErrorStatus net.robotsResp.status = false)
    (hne : net.robotsResp.body ≠ []) :
    (Session.robots net s).2.2 = [Request.get robotsUrl s._headers] ∧
    (Session.robots net s).1 = .ok (fetchedRobots net s.auth_provider) ∧
    Session.robots net (Session.robots net s).2.1 =
      (.ok (fetchedRobots net s.auth_provider), (Session.robots net s).2.1, []) := by
  have h1 := robots_of_empty_ok net s h0 hok
  have hfne : fetchedRobots net s.auth_provider ≠ [] := by
    simpa [fetchedRobots] using hne
  refine ⟨by rw [h1], by rw [h1], ?_⟩
  rw [h1]
  have h2 := robots_of_nonempty net
    { s with _robots := fetchedRobots net s.auth_provider } (by simpa using hfne)
  simpa using h2

/-- C1 witness: the amended claim at a concrete input — one device record,
empty starting cache. -/
theorem robots_memoized_of_nonempty_fetch_witness :
    demoSession._robots = [] ∧
    isErrorStatus oneRobotNet.robotsResp.status = false ∧
    oneRobotNet.robotsResp.body ≠ [] ∧
    ((Session.robots oneRobotNet demoSession).2.2 =
        [Request.get robotsUrl demoSession._headers] ∧
      (Session.robots oneRobotNet demoSession).1 =
        .ok (fetchedRobots oneRobotNet demoSession.auth_provider) ∧
      Session.robots oneRobotNet (Session.robots oneRobotNet demoSession).2.1 =
        (.ok (fetchedRobots oneRobotNet demoSession.auth_provider),
         (Session.robots oneRobotNet demoSession).2.1, [])) :=
  ⟨by decide, by decide, by decide,
   robots_memoized_of_nonempty_fetch oneRobotNet demoSession
     (by decide) (by decide) (by decide)⟩

/-- C9: memoization of the robots accessor is keyed on non-emptiness of
`_robots`, not on a has-fetched flag: when the fetch succeeds with an empty
device list, the access issues one request and leaves the Session exactly as
it was (so `_robots` stays empty), and the next access — shown by the second
conjunct — issues another request in the same way. -/
theorem robots_refetch_on_empty_fetch (net : Net) (s : Session)
    (h0 : s._robots = [])
    (hok : isErrorStatus net.robotsResp.status = false)
    (hbody : net.robotsResp.body = []) :
    Session.robots net s = (.ok [], s, [Request.get robotsUrl s._headers]) ∧
    Session.robots net (Session.robots net s).2.1 =
      (.ok [], s, [Request.get robotsUrl s._headers]) := by
  have h1 := robots_of_empty_ok net s h0 hok
  have hf : fetchedRobots net s.auth_provider = [] := by
    simp [fetchedRobots, hbody]
  have hstate : { s with _robots := fetchedRobots net s.auth_provider } = s := by
    rw [hf, ← h0]
  have hmain : Session.robots net s =
      (.ok [], s, [Request.get robotsUrl s._headers]) := by
    rw [h1, hstate, hf]
  refine ⟨hmain, ?_⟩
  rw [hmain]
  exact hmain

/-- C9 witness: the empty-fetch scenario at a concrete input. -/
theorem robots_refetch_on_empty_fetch_witness :
    demoSession._robots = [] ∧
    isErrorStatus emptyListNet.robotsResp.status = false ∧
    emptyListNet.robotsResp.body = [] ∧
    (Session.robots emptyListNet demoSession =
        (.ok [], demoSession, [Request.get robotsUrl demoSession._headers]) ∧
      Session.robots emptyListNet (Session.robots emptyListNet demoSession).2.1 =
        (.ok [], demoSession, [Request.get robotsUrl demoSession._headers])) :=
  ⟨by decide, by decide, by decide,
   robots_refetch_on_empty_fetch emptyListNet demoSession
     (by decide) (by decide) (by decide)⟩

/-- C2: the maps accessor is never memoized: for a Session whose robot set
is populated and whose per-robot maps requests succeed, EVERY access —
including a second, immediately repeated one shown by the middle conjunct —
invokes the refresh and issues exactly one authenticated GET per robot in
the robots set before returning `_maps`. -/
theorem maps_not_memoized (net : Net) (s : Session)
    (h0 : s._robots ≠ [])
    (hall : ∀ r ∈ s._robots, isErrorStatus (net.mapsResp r.serial).status = false) :
    Session.maps net s =
      (.ok (mapsFold net s._maps s._robots),
       { s with _maps := mapsFold net s._maps s._robots },
       s._robots.map (mapGetRequest s._headers)) ∧
    (Session.maps net (Session.maps net s).2.1).2.2 =
      s._robots.map (mapGetRequest s._headers) ∧
    (Session.maps net s).2.2.length = s._robots.length := by
  have h1 := refresh_maps_of_nonempty_ok net s h0 hall
  have hmain : Session.maps net s =
      (.ok (mapsFold net s._maps s._robots),
       { s with _maps := mapsFold net s._maps s._robots },
       s._robots.map (mapGetRequest s._headers)) := by
    simp [Session.maps, h1]
  refine ⟨hmain, ?_, by rw [hmain]; simp⟩
  rw [hmain]
  have h2 := refresh_maps_of_nonempty_ok net
    { s with _maps := mapsFold net s._maps s._robots } (by simpa using h0)
    (by simpa using hall)
  simp [Session.maps, h2]

/-- C2 witness: the concrete one-robot scenario. -/
theorem maps_not_memoized_witness :
    oneRobotSession._robots ≠ [] ∧
    (∀ r ∈ oneRobotSession._robots,
      isErrorStatus (oneRobotNet.mapsResp r.serial).status = false) ∧
    (Session.maps oneRobotNet oneRobotSession =
      (.ok (mapsFold oneRobotNet oneRobotSession._maps oneRobotSession._robots),
       { oneRobotSession with
          _maps := mapsFold oneRobotNet oneRobotSession._maps oneRobotSession._robots },
       oneRobotSession._robots.map (mapGetRequest oneRobotSession._headers)) ∧
    (Session.maps oneRobotNet
        (Session.maps oneRobotNet oneRobotSession).2.1).2.2 =
      oneRobotSession._robots.map (mapGetRequest oneRobotSession._headers) ∧
    (Session.maps oneRobotNet oneRobotSession).2.2.length =
      oneRobotSession._robots.length) :=
  ⟨by decide, by decide,
   maps_not_memoized oneRobotNet oneRobotSession (by decide) (by decide)⟩

/-- C3 (counterexample): `refresh_maps` does NOT raise on every non-2xx
per-robot response: with two cached robots whose second maps request answers
303 (non-2xx but not 4xx/5xx), the call completes without raising and
`_maps` holds entries for BOTH robots, not only the ones before the
"failing" one — `raise_for_status` only raises for 4xx/5xx. -/
theorem refresh_maps_303_no_raise_cex :
    (Session.refresh_maps (twoRobotNet 303) twoRobotSession).1 = .ok () ∧
    (Session.refresh_maps (twoRobotNet 303) twoRobotSession).2.1._maps =
      [("S1", "M1"), ("S2", "M2")] := by
  decide

/-- C3 (amended): when the per-robot maps request fails with a 4xx/5xx
status for some robot in the iteration, `refresh_maps` raises that HTTP
error immediately: the trace stops at the failing robot's request (no
requests for the remaining robots), and `_maps` is left holding exactly the
prior entries updated with the responses of the robots processed before the
failing one — no rollback of partial state. -/
theorem refresh_maps_truncates_on_failure (net : Net) (s : Session)
    (pre : List Robot) (bad : Robot) (post : List Robot)
    (hsplit : s._robots = pre ++ bad :: post)
    (hpre : ∀ r ∈ pre, isErrorStatus (net.mapsResp r.serial).status = false)
    (hbad : isErrorStatus (net.mapsResp bad.serial).status = true) :
    Session.refresh_maps net s =
      (.error (.httpError (net.mapsResp bad.serial).status),
       { s with _maps := mapsFold net s._maps pre },
       pre.map (mapGetRequest s._headers) ++ [mapGetRequest s._headers bad]) := by
  have h0 : s._robots ≠ [] := by rw [hsplit]; simp
  have h1 := robots_of_nonempty net s h0
  have h2 := refreshMapsLoop_of_fail net bad post hbad pre s hpre
  rw [hsplit] at h2
  simp [Session.refresh_maps, h1, hsplit, h2]

/-- C3 witness: the two-robot scenario with a 500 on the second robot. -/
theorem refresh_maps_truncates_on_failure_witness :
    twoRobotSession._robots =
      [mkRobot (AuthProvider.basic "T") demoRecord1] ++
        mkRobot (AuthProvider.basic "T") demoRecord2 :: [] ∧
    (∀ r ∈ [mkRobot (AuthProvider.basic "T") demoRecord1],
      isErrorStatus ((twoRobotNet 500).mapsResp r.serial).status = false) ∧
    isErrorStatus
      ((twoRobotNet 500).mapsResp
        (mkRobot (AuthProvider.basic "T") demoRecord2).serial).status = true ∧
    Session.refresh_maps (twoRobotNet 500) twoRobotSession =
      (.error (.httpError
         ((twoRobotNet 500).mapsResp
           (mkRobot (AuthProvider.basic "T") demoRecord2).serial).status),
       { twoRobotSession with
          _maps := mapsFold (twoRobotNet 500) twoRobotSession._maps
            [mkRobot (AuthProvider.basic "T") demoRecord1] },
       [mkRobot (AuthProvider.basic "T") demoRecord1].map
           (mapGetRequest twoRobotSession._headers) ++
         [mapGetRequest twoRobotSession._headers
           (mkRobot (AuthProvider.basic "T") demoRecord2)]) :=
  ⟨by decide, by decide, by decide,
   refresh_maps_truncates_on_failure (twoRobotNet 500) twoRobotSession
     [mkRobot (AuthProvider.basic "T") demoRecord1]
     (mkRobot (AuthProvider.basic "T") demoRecord2) []
     (by decide) (by decide) (by decide)⟩

/-- C4 (counterexample): with `dest_path` given and a 2xx response, the
claim asserts the streamed body is written under `dest_path`; but for a URL
with no '/' the filename derivation `url.rsplit('/', 2)[1]` raises
`IndexError` before the status is ever checked, no byte is written, and no
stream is returned. -/
theorem get_map_image_no_slash_cex :
    get_map_image { status := 200, body := "B" } "mapimage" (some "dest") =
      { returned := .error .indexError, writes := [],
        trace := [Request.getStream "mapimage" 10] } := by
  decide

/-- C4 (amended): divergent error behaviour of the two modes of
`get_map_image`, for URLs containing at least one '/': with `dest_path`
falsy (omitted or the empty string) the response status is never checked, no
disk write happens, and the raw stream is returned even for an error
status; with a non-empty `dest_path`, a 4xx/5xx status raises before any
byte is written, and otherwise (2xx and also 3xx, which
`raise_for_status()` does not treat as an error) the streamed body is
written under `dest_path` and the raw stream is still returned. -/
theorem get_map_image_modes (resp : Response Json) (url : String) (d : String)
    (hslash : 2 ≤ (pySplitStr url '/').length)
    (hd : d ≠ "") :
    get_map_image resp url none =
      { returned := .ok resp.body, writes := [],
        trace := [Request.getStream url 10] } ∧
    get_map_image resp url (some "") =
      { returned := .ok resp.body, writes := [],
        trace := [Request.getStream url 10] } ∧
    (isErrorStatus resp.status = true →
      get_map_image resp url (some d) =
        { returned := .error (.httpError resp.status), writes := [],
          trace := [Request.getStream url 10] }) ∧
    (isErrorStatus resp.status = false →
      get_map_image resp url (some d) =
        { returned := .ok resp.body,
          writes := [(pyPathJoin d (dropQuery
            ((((pyRsplitSlash url 2).get? 1).getD "") ++ "-" ++
              (((pyRsplitSlash url 1).get? 1).getD ""))), resp.body)],
          trace := [Request.getStream url 10] }) := by
  have l2 := pyRsplitSlash_two_le_length url 2 (by omega) hslash
  have l1 := pyRsplitSlash_two_le_length url 1 (by omega) hslash
  obtain ⟨a, ha⟩ : ∃ x, (pyRsplitSlash url 2)[1]? = some x :=
    ⟨(pyRsplitSlash url 2).get ⟨1, by omega⟩,
     by rw [← List.get?_eq_getElem?]; exact List.get?_eq_get (by omega)⟩
  obtain ⟨b, hb⟩ : ∃ x, (pyRsplitSlash url 1)[1]? = some x :=
    ⟨(pyRsplitSlash url 1).get ⟨1, by omega⟩,
     by rw [← List.get?_eq_getElem?]; exact List.get?_eq_get (by omega)⟩
  refine ⟨rfl, by simp [get_map_image], ?_, ?_⟩
  · intro herr
    simp [get_map_image, hd, ha, hb, raise_for_status, herr]
  · intro hok2
    simp [get_map_image, hd, ha, hb, raise_for_status, hok2]

/-- C4 witness: concrete success write and the hypotheses discharged. -/
theorem get_map_image_modes_witness :
    2 ≤ (pySplitStr "http://h/a/b?sig=1" '/').length ∧
    ("dest" : String) ≠ "" ∧
    get_map_image { status := 200, body := "B" } "http://h/a/b?sig=1"
        (some "dest") =
      { returned := .ok "B", writes := [("dest/a-b", "B")],
        trace := [Request.getStream "http://h/a/b?sig=1" 10] } := by
  refine ⟨by decide, by decide, ?_⟩
  have h := (get_map_image_modes { status := 200, body := "B" }
      "http://h/a/b?sig=1" "dest" (by decide) (by decide)).2.2.2 (by decide)
  rw [h]
  decide

/-- C5: `login_basic` POSTs a JSON body holding the email, the password,
platform "ios" and the hex nonce; the nonce hex-encodes the 64
`os.urandom` bytes into exactly 128 hexadecimal characters; and on a 2xx
response the returned Session's Authorization header value is exactly
`Token token=<access_token>` with no Bearer scheme. -/
theorem login_basic_spec (resp : Response LoginJson) (email password : String)
    (urandom64 : List Nat)
    (hlen : urandom64.length = 64)
    (hbytes : ∀ b ∈ urandom64, b < 256)
    (h2xx : 200 ≤ resp.status ∧ resp.status < 300) :
    (login_basic resp email password urandom64).2 =
      [Request.post sessionsUrl
        { email := email, password := password, platform := "ios",
          token := hexlify urandom64 }
        "application/vnd.neato.nucleo.v1"] ∧
    (hexlify urandom64).length = 128 ∧
    (∀ c ∈ (hexlify urandom64).data, c ∈ "0123456789abcdef".data) ∧
    (login_basic resp email password urandom64).1 =
      .ok (Session.init (AuthProvider.basic resp.body.access_token)) ∧
    (Session.init (AuthProvider.basic resp.body.access_token))._headers.authorization =
      "Token token=" ++ resp.body.access_token := by
  have hok : isErrorStatus resp.status = false := by
    simp [isErrorStatus]
    omega
  refine ⟨?_, ?_, hexlify_chars urandom64 hbytes, ?_, rfl⟩
  · simp [login_basic, raise_for_status, hok]
  · rw [hexlify_length, hlen]
  · simp [login_basic, raise_for_status, hok]

/-- C5 witness: a concrete login with byte values 0..63 and a 201
response. -/
theorem login_basic_spec_witness :
    (List.range 64).length = 64 ∧
    (∀ b ∈ List.range 64, b < 256) ∧
    (200 ≤ 201 ∧ 201 < 300) ∧
    (hexlify (List.range 64)).length = 128 ∧
    (login_basic { status := 201, body := { access_token := "AT" } }
        "e" "p" (List.range 64)).1 =
      .ok (Session.init (AuthProvider.basic "AT")) := by
  have h := login_basic_spec { status := 201, body := { access_token := "AT" } }
    "e" "p" (List.range 64) (by decide) (by decide) (by decide)
  exact ⟨by decide, by decide, by decide, h.2.1, h.2.2.2.1⟩

/-- C6: `login_oauth` performs no network request (its request trace is
empty) and returns a Session wrapping an OAuthProvider whose generated
headers carry the beehive Accept value and an Authorization value of
exactly `Bearer <oauth_token>`. -/
theorem login_oauth_spec (oauth_token : String) :
    login_oauth oauth_token =
      (Session.init (AuthProvider.oauth oauth_token), []) ∧
    (login_oauth oauth_token).1._headers =
      { accept := "application/vnd.neato.beehive.v1+json",
        authorization := "Bearer " ++ oauth_token } :=
  ⟨rfl, rfl⟩

/-- C7: `refresh_robots` never removes elements from `_robots`: on success
the new cache is the old cache with, appended, one Robot per device record —
built from `name`, `serial`, `secret` (from the remote `secret_key`),
`traits` and the session's auth provider — so every element present before
the call is still present after, and every fetched record's Robot is
present. -/
theorem refresh_robots_accumulates (net : Net) (s : Session)
    (hok : isErrorStatus net.robotsResp.status = false) :
    (Session.refresh_robots net s).1 = .ok () ∧
    (Session.refresh_robots net s).2.1._robots =
      s._robots ++ fetchedRobots net s.auth_provider ∧
    (∀ r ∈ s._robots, r ∈ (Session.refresh_robots net s).2.1._robots) ∧
    (∀ d ∈ net.robotsResp.body,
      mkRobot s.auth_provider d ∈ (Session.refresh_robots net s).2.1._robots) := by
  have h := refresh_robots_of_ok net s hok
  refine ⟨by rw [h], by rw [h], ?_, ?_⟩
  · intro r hr
    rw [h]
    exact List.mem_append.mpr (Or.inl hr)
  · intro d hd
    rw [h]
    exact List.mem_append.mpr (Or.inr (List.mem_map_of_mem (mkRobot s.auth_provider) hd))

/-- C7 witness: a session whose cache already holds the demo robot, refreshed
against the two-device oracle: the old element survives and both fetched
records' Robots are present. -/
theorem refresh_robots_accumulates_witness :
    isErrorStatus (twoRobotNet 200).robotsResp.status = false ∧
    ((Session.refresh_robots (twoRobotNet 200) oneRobotSession).1 = .ok () ∧
      (Session.refresh_robots (twoRobotNet 200) oneRobotSession).2.1._robots =
        oneRobotSession._robots ++
          fetchedRobots (twoRobotNet 200) oneRobotSession.auth_provider ∧
      (∀ r ∈ oneRobotSession._robots,
        r ∈ (Session.refresh_robots (twoRobotNet 200) oneRobotSession).2.1._robots) ∧
      (∀ d ∈ (twoRobotNet 200).robotsResp.body,
        mkRobot oneRobotSession.auth_provider d ∈
          (Session.refresh_robots (twoRobotNet 200) oneRobotSession).2.1._robots)) :=
  ⟨by decide,
   refresh_robots_accumulates (twoRobotNet 200) oneRobotSession (by decide)⟩

/-- C8: `_headers` is a one-time snapshot: a Session constructed from an auth
provider still carries `generate_headers` of that provider after ANY
sequence of operations, and every request issued by the next operation —
whichever it is — carries exactly that construction-time header snapshot;
no operation regenerates headers. -/
theorem headers_snapshot (auth : AuthProvider) (net : Net)
    (ops : List SessionOp) (op : SessionOp) :
    (runOps net (Session.init auth) ops)._headers = generate_headers auth ∧
    ∀ req ∈ (runOp net op (runOps net (Session.init auth) ops)).2,
      req.headersOf = some (generate_headers auth) := by
  have h1 : (runOps net (Session.init auth) ops)._headers = generate_headers auth :=
    (runOps_frame net ops (Session.init auth)).1
  refine ⟨h1, fun req hreq => ?_⟩
  rw [runOp_trace_headers net op _ req hreq, h1]

/-- C8 witness: after no operations, a robots refresh issues its GET with
the construction-time headers of the basic provider. -/
theorem headers_snapshot_witness :
    (Request.get robotsUrl (generate_headers (AuthProvider.basic "T")) ∈
      (runOp oneRobotNet SessionOp.refresh_robots
        (runOps oneRobotNet (Session.init (AuthProvider.basic "T")) [])).2) ∧
    (runOps oneRobotNet (Session.init (AuthProvider.basic "T")) [])._headers =
      generate_headers (AuthProvider.basic "T") ∧
    (Request.get robotsUrl
        (generate_headers (AuthProvider.basic "T"))).headersOf =
      some (generate_headers (AuthProvider.basic "T")) := by
  have h := headers_snapshot (AuthProvider.basic "T") oneRobotNet []
    SessionOp.refresh_robots
  exact ⟨by decide, h.1, h.2 _ (by decide)⟩

/-- C10: the dead fields `robot_serials` and `_persistent_maps` are
initialised to empty mappings at construction and are never modified by any
sequence of Session operations (the static `get_map_image` takes no Session
at all), so they stay empty for the lifetime of the Session. -/
theorem dead_fields_stay_empty (auth : AuthProvider) (net : Net)
    (ops : List SessionOp) :
    (runOps net (Session.init auth) ops).robot_serials = [] ∧
    (runOps net (Session.init auth) ops)._persistent_maps = [] := by
  obtain ⟨_, h2, h3⟩ := runOps_frame net ops (Session.init auth)
  exact ⟨by rw [h2]; rfl, by rw [h3]; rfl⟩

end Pybotvac
